import Mathlib

/-!
A shallow embedding of the time computation and aggregation logic of the
Wingman flight-logbook application (Django app `logbook`), together with
proofs about it.

Modelling conventions:
* Python strings are modelled as `List Char`.
* Python `int` is modelled as `Int`; non-negative counters as `Nat`.
* Python `float` and `decimal.Decimal` arithmetic on the values that occur
  here is modelled exactly as `ℚ`.  Every concrete quantity handled by the
  code (integer second counts divided by 60, minute counts divided by 60
  or 3600) is far closer to the nearest representable double than to any
  decision boundary used by the code (a rounding midpoint or an integer),
  so the exact rational model and IEEE double evaluation agree on all
  branches and results modelled below.
* `datetime.combine(date, t)` is applied to both clock times with the same
  `date`, so instants compare and subtract exactly like seconds-of-day,
  with the common date cancelling.
-/

deriving instance DecidableEq for Except

namespace Wingman

/-- Split a character list at every occurrence of `sep`; models Python
`str.split(sep)` for a one-character separator. -/
def splitOnChar (sep : Char) : List Char → List (List Char)
  | [] => [[]]
  | c :: cs =>
    if c = sep then [] :: splitOnChar sep cs
    else
      match splitOnChar sep cs with
      | [] => [[c]]
      | t :: ts => (c :: t) :: ts

/-- Numeric value of a decimal digit character. -/
def digitVal (c : Char) : Nat := c.toNat - 48

/-- Accumulator loop of decimal parsing: consume digits, fail on any
non-digit character. -/
def goDigits : Nat → List Char → Option Nat
  | acc, [] => some acc
  | acc, c :: cs => if c.isDigit then goDigits (10 * acc + digitVal c) cs else none

/-- Parse a non-empty run of decimal digits. -/
def parseDigits : List Char → Option Nat
  | [] => none
  | c :: cs => goDigits 0 (c :: cs)

/-- Models Python `int(text)` on strings: an optional sign followed by one
or more decimal digits (the exotic forms Python also accepts — surrounding
whitespace and digit-group underscores — do not occur in this code's
inputs and are not modelled). `none` models `ValueError`. -/
def pyInt : List Char → Option Int
  | [] => none
  | c :: cs =>
    if c = '-' then (parseDigits cs).map (fun n => -(n : Int))
    else if c = '+' then (parseDigits cs).map (fun n => (n : Int))
    else (parseDigits (c :: cs)).map (fun n => (n : Int))

/-- Fuel-driven loop producing the decimal digits of `k`, most significant
first; any fuel above `k` gives the same answer. -/
def natDigitsGo : Nat → Nat → List Char
  | 0, _ => []
  | fuel + 1, k =>
    if k < 10 then [Nat.digitChar k]
    else natDigitsGo fuel (k / 10) ++ [Nat.digitChar (k % 10)]

/-- The decimal digit string of `n`; models Python `str(n)` for a
non-negative integer. -/
def natDigits (n : Nat) : List Char := natDigitsGo (n + 1) n

/-- Zero-pad to width two; models the Python format spec `02d` applied to
a non-negative integer. -/
def pad2 (n : Nat) : List Char := if n < 10 then '0' :: natDigits n else natDigits n

/-- Round-half-even of the fraction `n / d` (for `d > 0`); models Python's
`round` and `Decimal` `ROUND_HALF_EVEN` on exact values. -/
def roundHalfEvenDiv (n d : Nat) : Nat :=
  if 2 * (n % d) < d then n / d
  else if d < 2 * (n % d) then n / d + 1
  else n / d + n / d % 2

/-- The `ValidationError` message raised by `TimeInMinutesField.clean`
(`logbook/forms.py`). -/
def timeFormatErrorMsg : List Char := ("Please enter time in HH:MM format (e.g., 02:30)").toList

/-- `TimeInMinutesField.clean` (`logbook/forms.py`, lines 35-51): empty or
"00:00" input yields 0; input containing ':' is split and both parts are
parsed with `int`, yielding `hours * 60 + minutes`; other input is parsed
directly with `int` as a raw minute count; any parse failure (including a
split into more or fewer than two parts) raises the format
`ValidationError`, modelled as `Except.error`. -/
def TimeInMinutesField.clean (value : List Char) : Except (List Char) Int :=
  if value = [] ∨ value = ("00:00").toList then .ok 0
  else if ':' ∈ value then
    match splitOnChar ':' value with
    | [h, m] =>
      match pyInt h, pyInt m with
      | some hours, some minutes => .ok (hours * 60 + minutes)
      | _, _ => .error timeFormatErrorMsg
    | _ => .error timeFormatErrorMsg
  else
    match pyInt value with
    | some n => .ok n
    | none => .error timeFormatErrorMsg

/-- The `minutes_to_time` template filter
(`logbook/templatetags/time_filters.py`, lines 6-17), on its domain of
non-negative integer minute counts (`None` input, which also yields
"00:00", is not modelled): zero-padded "HH:MM".
`FlightForm._minutes_to_time` and `TimeInMinutesField.prepare_value` in
`logbook/forms.py` compute the same string. -/
def minutes_to_time (minutes : Nat) : List Char :=
  if minutes = 0 then ("00:00").toList
  else pad2 (minutes / 60) ++ ':' :: pad2 (minutes % 60)

/-- The `minutes_to_hours` template filter
(`logbook/templatetags/time_filters.py`, lines 19-29), on non-negative
integer minute counts: the decimal-hours string `minutes / 60` formatted
with one fractional digit.  The Python code formats the IEEE double
`minutes / 60` with `.1f`; `minutes / 6` is never a half-integer
(10·minutes ≡ 3 mod 6 is impossible), and the double is within 2⁻⁴⁰ of
the exact value while the nearest rounding midpoint is at least 1/6 away,
so exact half-even rounding to tenths models it faithfully. -/
def minutes_to_hours (minutes : Nat) : List Char :=
  if minutes = 0 then ("0.0").toList
  else
    let tenths := roundHalfEvenDiv (10 * minutes) 60
    natDigits (tenths / 10) ++ '.' :: [Nat.digitChar (tenths % 10)]

/-- A wall-clock time of day, as stored in the `departure_time` /
`arrival_time` `TimeField`s (Python `datetime.time`; the microsecond
component, always zero for the HH:MM form inputs of this app, is not
modelled). -/
structure Time where
  hour : Nat
  minute : Nat
  second : Nat
deriving DecidableEq

/-- Seconds since midnight.  Python `datetime` instants built by
`datetime.combine` from the same date compare and subtract exactly like
this quantity. -/
def secondsOfDay (t : Time) : Nat := 3600 * t.hour + 60 * t.minute + t.second

/-- The `engine_type` choices of `Aircraft` (`logbook/models.py`):
'SINGLE' or 'MULTI'. -/
inductive EngineType where
  | single
  | multi
deriving DecidableEq

/-- The `Aircraft` model (`logbook/models.py`), restricted to the fields
the verified computations read. -/
structure Aircraft where
  registration : List Char
  typeName : List Char
  manufacturer : List Char
  engine_type : EngineType
deriving DecidableEq

/-- The `Flight` model (`logbook/models.py`).  `total_time` is the stored
`DecimalField` of decimal hours (`none` models SQL NULL / Python `None`);
minute-count fields are `Int` as produced by `TimeInMinutesField.clean`;
blank `CharField`s are empty lists, and the blank preserved engine type is
`none`.  The `pilot`, `remarks`, timestamp and `simulator_type` fields and
the unused legacy landing counters play no part in any verified
computation and are omitted. -/
structure Flight where
  date : Nat
  aircraft : Option Aircraft
  aircraft_registration : List Char
  aircraft_manufacturer : List Char
  aircraft_type : List Char
  aircraft_engine_type : Option EngineType
  departure_aerodrome : List Char
  arrival_aerodrome : List Char
  departure_time : Option Time
  arrival_time : Option Time
  total_time : Option ℚ
  single_engine_time : Int
  multi_engine_time : Int
  multi_pilot_time : Int
  day_landings : Nat
  night_landings : Nat
  ifr_approaches : Nat
  night_time : Int
  ifr_time : Int
  pic_time : Int
  copilot_time : Int
  double_command_time : Int
  instructor_time : Int
  simulator_time : Int
  instrument_time : Int
  cross_country_time : Int
deriving DecidableEq

/-- Python `int(q)` on a number: truncation toward zero
(`Int.tdiv` is Lean's truncating division). -/
def pyTrunc (q : ℚ) : Int := Int.tdiv q.num q.den

/-- Python truthiness of the optional decimal `total_time`: `None` and 0
are falsy. -/
def totalTimeTruthy (t : Option ℚ) : Bool :=
  match t with
  | some v => v ≠ 0
  | none => false

/-- `int(self.total_time * 60) if self.total_time else 0`: the flight's
stored decimal-hours total expressed as whole minutes
(`logbook/models.py`, line 207 and lines 126/129). -/
def totalTimeMinutes (t : Option ℚ) : Int :=
  match t with
  | some v => if v ≠ 0 then pyTrunc (v * 60) else 0
  | none => 0

/-- Seconds from departure to arrival after the overnight rollover of
`Flight.exact_flight_minutes` / `Flight.save`: when the arrival instant is
strictly earlier than the departure instant on the same date, one day
(86400 s) is added to it. -/
def overnightDiffSeconds (dep arr : Time) : Nat :=
  (if secondsOfDay arr < secondsOfDay dep then secondsOfDay arr + 86400
   else secondsOfDay arr) - secondsOfDay dep

/-- The whole-minute value `int(time_diff.total_seconds() / 60)` computed
by `Flight.exact_flight_minutes` when both clock times are present:
truncation of seconds/60. -/
def exactMinutesFromTimes (dep arr : Time) : Nat := overnightDiffSeconds dep arr / 60

/-- `Flight.exact_flight_minutes` (`logbook/models.py`, lines 193-207):
with both clock times present, the truncated minute count of the (rollover
adjusted) instant difference; otherwise the fallback
`int(self.total_time * 60) if self.total_time else 0`. -/
def Flight.exact_flight_minutes (f : Flight) : Int :=
  match f.departure_time, f.arrival_time with
  | some dep, some arr => (exactMinutesFromTimes dep arr : Int)
  | _, _ => totalTimeMinutes f.total_time

/-- `Decimal(str(m / 60)).quantize(Decimal('0.01'))` applied to a whole
minute count `m` (`logbook/models.py`, lines 110 and 213): `m / 60` hours
rounded half-even to hundredths.  `100·m / 60` is never a half-integer
(10·m ≡ 3 mod 6 is impossible), and the double `m / 60` and its shortest
`str` form sit within 2⁻⁴⁰ of the exact value while the nearest rounding
midpoint is at least 1/600 away, so exact rounding models the
float-then-Decimal pipeline faithfully. -/
def quantizeHundredths (m : Nat) : ℚ := (roundHalfEvenDiv (100 * m) 60 : ℚ) / 100

/-- The total-time auto-computation of `Flight.save`
(`logbook/models.py`, lines 92-110; `Flight.save` below composes this
with the aircraft section to model the whole state transformation applied
before the Django `Model.save` write): if `total_time` is falsy and both
clock times are present, set it to `round(seconds / 60)` minutes (Python
`round`: half-even) quantized to hundredth-hours; otherwise leave the
record unchanged. -/
def Flight.saveAutoTotal (f : Flight) : Flight :=
  if totalTimeTruthy f.total_time then f
  else
    match f.departure_time, f.arrival_time with
    | some dep, some arr =>
      let m := roundHalfEvenDiv (overnightDiffSeconds dep arr) 60
      { f with total_time := some (quantizeHundredths m) }
    | _, _ => f

/-- The aircraft-details / engine-time section of `Flight.save`
(`logbook/models.py`, lines 112-136), applied after the total-time
auto-computation. -/
def Flight.save (f : Flight) : Flight :=
  let f1 := f.saveAutoTotal
  match f1.aircraft with
  | some a =>
    let f2 := { f1 with
      aircraft_registration :=
        if f1.aircraft_registration = [] then a.registration else f1.aircraft_registration,
      aircraft_manufacturer :=
        if f1.aircraft_manufacturer = [] then a.manufacturer else f1.aircraft_manufacturer,
      aircraft_type :=
        if f1.aircraft_type = [] then a.typeName else f1.aircraft_type,
      aircraft_engine_type :=
        match f1.aircraft_engine_type with
        | none => some a.engine_type
        | some e => some e }
    match a.engine_type with
    | .single => { f2 with
        single_engine_time := totalTimeMinutes f2.total_time,
        multi_engine_time := 0 }
    | .multi => { f2 with
        multi_engine_time := totalTimeMinutes f2.total_time,
        single_engine_time := 0 }
  | none => { f1 with single_engine_time := 0, multi_engine_time := 0 }

/-- `Flight.recalculate_total_time` (`logbook/models.py`, lines 209-216):
with both clock times present, overwrite `total_time` with the exact
minute count quantized to hundredth-hours and report `true`; otherwise
leave the record unchanged and report `false`. -/
def Flight.recalculate_total_time (f : Flight) : Flight × Bool :=
  match f.departure_time, f.arrival_time with
  | some dep, some arr =>
    ({ f with total_time := some (quantizeHundredths (exactMinutesFromTimes dep arr)) }, true)
  | _, _ => (f, false)

/-- `Flight.is_cross_country` (`logbook/models.py`, lines 138-145): true
when the legacy `cross_country_time` field is positive, else when the
departure and arrival aerodrome strings differ. -/
def Flight.is_cross_country (f : Flight) : Bool :=
  if 0 < f.cross_country_time then true
  else decide (f.departure_aerodrome ≠ f.arrival_aerodrome)

/-- `PilotProfile.total_flight_hours` (`logbook/models.py`, lines
242-246), as a function of the pilot's flight list: the sum of exact
minute counts, divided by 60. -/
def PilotProfile.total_flight_hours (flights : List Flight) : ℚ :=
  ((flights.map Flight.exact_flight_minutes).sum : ℚ) / 60

/-- `PilotProfile.total_night_hours` (`logbook/models.py`, lines 248-252):
the sum of per-flight night minutes, divided by 60. -/
def PilotProfile.total_night_hours (flights : List Flight) : ℚ :=
  ((flights.map Flight.night_time).sum : ℚ) / 60

/-- `PilotProfile.total_solo_hours` (`logbook/models.py`, lines 275-279):
the sum of `pic_time / 60` over the flights with positive `pic_time`. -/
def PilotProfile.total_solo_hours (flights : List Flight) : ℚ :=
  ((flights.filter (fun f => 0 < f.pic_time)).map (fun f => (f.pic_time : ℚ) / 60)).sum

/-- `PilotProfile.total_pic_hours` (`logbook/models.py`, lines 281-285):
the sum of `pic_time / 60` over the flights with positive `pic_time` —
textually the same computation as `total_solo_hours`. -/
def PilotProfile.total_pic_hours (flights : List Flight) : ℚ :=
  ((flights.filter (fun f => 0 < f.pic_time)).map (fun f => (f.pic_time : ℚ) / 60)).sum

/-- The data carried by a category-exceeds-total `ValidationError` of
`FlightForm.clean`: the message text names the category and interpolates
the category value (as HH:MM) and the total flight time (as decimal
hours), so the error determines the triple modelled here. -/
structure CategoryExceedsTotalError where
  category : List Char
  categoryMinutes : Int
  totalMinutes : Int
deriving DecidableEq

/-- One category-vs-total block of `FlightForm.clean`
(`logbook/forms.py`, lines 224-275), e.g.
`if night_time and night_time > total_minutes: raise ...`:
the cleaned value is `none` (absent) or an integer, a zero value is falsy
and skips the check, and a value strictly above `total_minutes` raises. -/
def checkCategoryWithinTotal (name : List Char) (value : Option Int) (total_minutes : Int) :
    Except CategoryExceedsTotalError Unit :=
  match value with
  | some v =>
    if v ≠ 0 ∧ total_minutes < v then .error ⟨name, v, total_minutes⟩ else .ok ()
  | none => .ok ()

/-- The ten cleaned category-minute values read by `FlightForm.clean`. -/
structure FlightFormTimes where
  night_time : Option Int
  ifr_time : Option Int
  single_engine_time : Option Int
  multi_engine_time : Option Int
  pic_time : Option Int
  copilot_time : Option Int
  multi_pilot_time : Option Int
  double_command_time : Option Int
  instructor_time : Option Int
  simulator_time : Option Int
deriving DecidableEq

/-- The category checks of `FlightForm.clean` in source order
(`logbook/forms.py`, lines 224-275), each with the category name its
error message uses. -/
def categoryChecks (d : FlightFormTimes) : List (List Char × Option Int) :=
  [(("Night time").toList, d.night_time),
   (("IFR time").toList, d.ifr_time),
   (("Single engine time").toList, d.single_engine_time),
   (("Multi engine time").toList, d.multi_engine_time),
   (("PIC time").toList, d.pic_time),
   (("Co-pilot time").toList, d.copilot_time),
   (("Multi-pilot time").toList, d.multi_pilot_time),
   (("Double command time").toList, d.double_command_time),
   (("Instructor time").toList, d.instructor_time),
   (("Simulator time").toList, d.simulator_time)]

/-- Run a list of category checks in order, stopping at the first raised
error, as the straight-line sequence of `if ...: raise` blocks does. -/
def runCategoryChecks (total_minutes : Int) :
    List (List Char × Option Int) → Except CategoryExceedsTotalError Unit
  | [] => .ok ()
  | p :: rest =>
    (checkCategoryWithinTotal p.1 p.2 total_minutes).bind
      (fun _ => runCategoryChecks total_minutes rest)

/-- The category-vs-total validation section of `FlightForm.clean`
(`logbook/forms.py`, lines 224-275): the ten blocks execute in source
order and the first failing category raises; none of the values is
modified.  `total_minutes` is `int(duration.total_seconds() / 60)`, which
is at least 6 here because the preceding duration checks enforce
0.1 h ≤ duration ≤ 24 h. -/
def FlightForm.validateCategoryTimes (d : FlightFormTimes) (total_minutes : Int) :
    Except CategoryExceedsTotalError Unit :=
  runCategoryChecks total_minutes (categoryChecks d)

/-- One row of the per-aircraft usage summary built by
`calculate_aircraft_usage_accurate` (`logbook/views.py`). -/
structure UsageEntry where
  registration : List Char
  manufacturer : List Char
  typeName : List Char
  total_hours : ℚ
  flight_count : Nat
deriving DecidableEq

/-- The registration / manufacturer / type strings under which
`calculate_aircraft_usage_accurate` groups a flight: the referenced
aircraft row if any, else the preserved strings if a registration was
preserved, else the 'SIM' sentinel.  (The code's `manufacturer or ''` is
the identity on these never-`None` `CharField` strings and is dropped.) -/
def usageKey (f : Flight) : List Char × List Char × List Char :=
  match f.aircraft with
  | some a => (a.registration, a.manufacturer, a.typeName)
  | none =>
    if f.aircraft_registration ≠ [] then
      (f.aircraft_registration, f.aircraft_manufacturer, f.aircraft_type)
    else (("SIM").toList, ("Simulator").toList, ("SIM").toList)

/-- Update the grouped totals at a key: a new registration appends a
fresh group (insertion order, as for a Python dict); an existing one has
the hours added and its flight count bumped, with the manufacturer and
type strings overwritten as the code re-assigns them on every flight. -/
def updateUsage (key : List Char × List Char × List Char) (h : ℚ) :
    List UsageEntry → List UsageEntry
  | [] => [⟨key.1, key.2.1, key.2.2, h, 1⟩]
  | e :: es =>
    if e.registration = key.1 then
      { e with manufacturer := key.2.1, typeName := key.2.2, total_hours := e.total_hours + h, flight_count := e.flight_count + 1 } :: es
    else e :: updateUsage key h es

/-- Accumulate one flight into the grouped totals, keyed by registration,
adding `exact_flight_minutes / 60` hours and one flight. -/
def addFlightToTotals (acc : List UsageEntry) (f : Flight) : List UsageEntry :=
  updateUsage (usageKey f) ((f.exact_flight_minutes : ℚ) / 60) acc

/-- Insert an entry into a list already sorted by descending
`total_hours`, after entries with at least its hours: together with
`sortUsageDesc` this is exactly the stable descending sort of
`result.sort(key=..., reverse=True)`. -/
def insertUsageDesc (e : UsageEntry) : List UsageEntry → List UsageEntry
  | [] => [e]
  | x :: xs =>
    if x.total_hours ≤ e.total_hours then e :: x :: xs
    else x :: insertUsageDesc e xs

/-- Stable sort by descending `total_hours` (insertion sort). -/
def sortUsageDesc : List UsageEntry → List UsageEntry
  | [] => []
  | x :: xs => insertUsageDesc x (sortUsageDesc xs)

/-- `calculate_aircraft_usage_accurate` (`logbook/views.py`, lines
56-96): group the flights by registration in encounter order, accumulate
exact hours and flight counts, sort by descending hours (stable), and
apply `result[:limit] if limit else result` — a truthy (non-`None`,
non-zero) limit truncates. -/
def calculate_aircraft_usage_accurate (flights : List Flight) (limit : Option Nat) :
    List UsageEntry :=
  let result := sortUsageDesc (flights.foldl addFlightToTotals [])
  match limit with
  | some l => if l ≠ 0 then result.take l else result
  | none => result

/-- The specification's duration formula, `round((arrival − departure) in
seconds / 60)` with half-up rounding, on a whole-second difference:
`⌊(s + 30) / 60⌋`.  Stated from the spec for comparison with the code's
`Flight.exact_flight_minutes`. -/
def specRoundHalfUpMinutes (seconds : Nat) : Nat := (seconds + 30) / 60

/-- A flight record with every field empty, `None` or zero; concrete
records below override the fields they exercise. -/
def baseFlight : Flight where
  date := 0
  aircraft := none
  aircraft_registration := []
  aircraft_manufacturer := []
  aircraft_type := []
  aircraft_engine_type := none
  departure_aerodrome := []
  arrival_aerodrome := []
  departure_time := none
  arrival_time := none
  total_time := none
  single_engine_time := 0
  multi_engine_time := 0
  multi_pilot_time := 0
  day_landings := 0
  night_landings := 0
  ifr_approaches := 0
  night_time := 0
  ifr_time := 0
  pic_time := 0
  copilot_time := 0
  double_command_time := 0
  instructor_time := 0
  simulator_time := 0
  instrument_time := 0
  cross_country_time := 0

/-- A flight from 10:00:00 to 10:00:30 on the same day: thirty seconds. -/
def secondsFlight : Flight :=
  { baseFlight with departure_time := some ⟨10, 0, 0⟩, arrival_time := some ⟨10, 0, 30⟩ }

/-- The overnight example flight: departure 23:00, arrival 01:00. -/
def overnightFlight : Flight :=
  { baseFlight with departure_time := some ⟨23, 0, 0⟩, arrival_time := some ⟨1, 0, 0⟩ }

/-- A flight with no departure time recorded but a stored total of 1.5
decimal hours. -/
def noTimesFlight : Flight :=
  { baseFlight with arrival_time := some ⟨11, 0, 0⟩, total_time := some ((3 : ℚ) / 2) }

/-- A flight whose legacy `cross_country_time` field is positive although
departure and arrival aerodromes coincide. -/
def legacyCrossCountryFlight : Flight :=
  { baseFlight with
    cross_country_time := 30,
    departure_aerodrome := ("LFPB").toList,
    arrival_aerodrome := ("LFPB").toList }

/-- A flight from LFPB to LFPB with no legacy cross-country minutes. -/
def sameRouteFlight : Flight :=
  { baseFlight with
    departure_aerodrome := ("LFPB").toList,
    arrival_aerodrome := ("LFPB").toList }

/-- A flight from LFPB to LFPO with no legacy cross-country minutes. -/
def crossRouteFlight : Flight :=
  { baseFlight with
    departure_aerodrome := ("LFPB").toList,
    arrival_aerodrome := ("LFPO").toList }

/-- A flight whose stored `total_time` (1.0 h) disagrees with its clock
times (10:00 to 12:00, i.e. 2 h). -/
def staleFlight : Flight :=
  { baseFlight with
    total_time := some 1,
    departure_time := some ⟨10, 0, 0⟩,
    arrival_time := some ⟨12, 0, 0⟩ }

/-- The single-engine Cessna of the aggregation scenario. -/
def scenarioAircraft : Aircraft where
  registration := ("F-GABC").toList
  typeName := ("Cessna 152").toList
  manufacturer := ("Cessna").toList
  engine_type := .single

/-- Scenario flight 1: 60 minutes on the Cessna with 30 night minutes. -/
def scenarioFlight1 : Flight :=
  { baseFlight with
    aircraft := some scenarioAircraft,
    departure_time := some ⟨10, 0, 0⟩,
    arrival_time := some ⟨11, 0, 0⟩,
    night_time := 30 }

/-- Scenario flight 2: 90 minutes on the Cessna with 90 PIC minutes. -/
def scenarioFlight2 : Flight :=
  { baseFlight with
    aircraft := some scenarioAircraft,
    departure_time := some ⟨10, 0, 0⟩,
    arrival_time := some ⟨11, 30, 0⟩,
    pic_time := 90 }

/-- Scenario flight 3: a 30-minute simulator session with no aircraft. -/
def scenarioFlight3 : Flight :=
  { baseFlight with
    departure_time := some ⟨14, 0, 0⟩,
    arrival_time := some ⟨14, 30, 0⟩,
    simulator_time := 30 }

/-- The three scenario flights, in logbook order. -/
def scenarioFlights : List Flight := [scenarioFlight1, scenarioFlight2, scenarioFlight3]

/-- A concrete set of cleaned category values: 30 night minutes, 60
single-engine minutes, 90 PIC minutes, the rest absent or zero. -/
def exampleFormTimes : FlightFormTimes where
  night_time := some 30
  ifr_time := none
  single_engine_time := some 60
  multi_engine_time := none
  pic_time := some 90
  copilot_time := none
  multi_pilot_time := none
  double_command_time := none
  instructor_time := none
  simulator_time := some 0

theorem goDigits_append (acc : Nat) (xs ys : List Char) :
    goDigits acc (xs ++ ys) = (goDigits acc xs).bind (fun a => goDigits a ys) := by
  induction xs generalizing acc with
  | nil => simp [goDigits]
  | cons c cs ih =>
    by_cases h : c.isDigit
    · simp [goDigits, h, ih]
    · simp [goDigits, h]

theorem digitChar_isDigit {k : Nat} (h : k < 10) : (Nat.digitChar k).isDigit = true := by
  interval_cases k <;> decide

theorem digitVal_digitChar {k : Nat} (h : k < 10) : digitVal (Nat.digitChar k) = k := by
  interval_cases k <;> decide

theorem natDigitsGo_ne_nil {fuel k : Nat} (h : k < fuel) : natDigitsGo fuel k ≠ [] := by
  cases fuel with
  | zero => omega
  | succ f =>
    by_cases hk : k < 10 <;> simp [natDigitsGo, hk]

theorem natDigitsGo_isDigit :
    ∀ fuel k, k < fuel → ∀ c ∈ natDigitsGo fuel k, c.isDigit = true := by
  intro fuel
  induction fuel with
  | zero => intro k h; omega
  | succ f ih =>
    intro k h c hc
    by_cases hk : k < 10
    · simp only [natDigitsGo, if_pos hk, List.mem_singleton] at hc
      subst hc
      exact digitChar_isDigit hk
    · simp only [natDigitsGo, if_neg hk, List.mem_append, List.mem_singleton] at hc
      rcases hc with hc | hc
      · exact ih (k / 10) (by omega) c hc
      · subst hc
        exact digitChar_isDigit (Nat.mod_lt _ (by norm_num))

theorem goDigits_natDigitsGo :
    ∀ fuel k acc, k < fuel →
      goDigits acc (natDigitsGo fuel k) =
        some (acc * 10 ^ (natDigitsGo fuel k).length + k) := by
  intro fuel
  induction fuel with
  | zero => intro k acc h; omega
  | succ f ih =>
    intro k acc h
    by_cases hk : k < 10
    · simp only [natDigitsGo, if_pos hk, goDigits, digitChar_isDigit hk, if_pos,
        digitVal_digitChar hk, List.length_singleton, pow_one]
      congr 1
      omega
    · have hrec : k / 10 < f := by omega
      simp only [natDigitsGo, if_neg hk]
      rw [goDigits_append, ih (k / 10) acc hrec]
      have hmod : k % 10 < 10 := Nat.mod_lt _ (by norm_num)
      simp only [Option.some_bind, goDigits, digitChar_isDigit hmod, if_pos,
        digitVal_digitChar hmod, List.length_append, List.length_singleton]
      congr 1
      have hexp : 10 * (acc * 10 ^ (natDigitsGo f (k / 10)).length + k / 10) + k % 10 =
          acc * 10 ^ ((natDigitsGo f (k / 10)).length + 1) + (10 * (k / 10) + k % 10) := by
        rw [pow_succ]
        ring
      rw [hexp, Nat.div_add_mod]

theorem parseDigits_natDigits (n : Nat) : parseDigits (natDigits n) = some n := by
  have h := goDigits_natDigitsGo (n + 1) n 0 (by omega)
  have hne := natDigitsGo_ne_nil (show n < n + 1 by omega)
  unfold natDigits
  cases hl : natDigitsGo (n + 1) n with
  | nil => exact absurd hl hne
  | cons c cs =>
    rw [hl] at h
    simpa [parseDigits] using h

theorem natDigits_isDigit (n : Nat) : ∀ c ∈ natDigits n, c.isDigit = true :=
  natDigitsGo_isDigit (n + 1) n (by omega)

theorem natDigits_ne_nil (n : Nat) : natDigits n ≠ [] :=
  natDigitsGo_ne_nil (show n < n + 1 by omega)

theorem parseDigits_pad2 (n : Nat) : parseDigits (pad2 n) = some n := by
  unfold pad2
  by_cases h : n < 10
  · have hz : parseDigits ('0' :: natDigits n) = goDigits 0 (natDigits n) := by
      have : goDigits 0 ('0' :: natDigits n) = goDigits 0 (natDigits n) := by
        simp [goDigits, digitVal]
      simpa [parseDigits] using this
    have h2 := goDigits_natDigitsGo (n + 1) n 0 (by omega)
    simp only [if_pos h, hz]
    simpa [natDigits] using h2
  · simp [if_neg h, parseDigits_natDigits n]

theorem pad2_isDigit (n : Nat) : ∀ c ∈ pad2 n, c.isDigit = true := by
  unfold pad2
  by_cases h : n < 10
  · simp only [if_pos h, List.mem_cons]
    rintro c (rfl | hc)
    · decide
    · exact natDigits_isDigit n c hc
  · simp only [if_neg h]
    exact natDigits_isDigit n

theorem pad2_ne_nil (n : Nat) : pad2 n ≠ [] := by
  unfold pad2
  by_cases h : n < 10
  · simp [if_pos h]
  · simp only [if_neg h]
    exact natDigits_ne_nil n

theorem isDigit_ne_sign {c : Char} (h : c.isDigit = true) : c ≠ '-' ∧ c ≠ '+' ∧ c ≠ ':' := by
  refine ⟨?_, ?_, ?_⟩ <;> rintro rfl <;> exact absurd h (by decide)

theorem pyInt_of_digits (l : List Char) (hne : l ≠ []) (hd : ∀ c ∈ l, c.isDigit = true) :
    pyInt l = (parseDigits l).map (fun n => (n : Int)) := by
  cases l with
  | nil => exact absurd rfl hne
  | cons c cs =>
    obtain ⟨h1, h2, _⟩ := isDigit_ne_sign (hd c (List.mem_cons_self c cs))
    simp [pyInt, h1, h2]

theorem pyInt_pad2 (n : Nat) : pyInt (pad2 n) = some (n : Int) := by
  rw [pyInt_of_digits _ (pad2_ne_nil n) (pad2_isDigit n), parseDigits_pad2]
  rfl

theorem splitOnChar_no_sep (sep : Char) (l : List Char) (h : ∀ c ∈ l, c ≠ sep) :
    splitOnChar sep l = [l] := by
  induction l with
  | nil => rfl
  | cons c cs ih =>
    have hc : c ≠ sep := h c (List.mem_cons_self c cs)
    rw [splitOnChar, if_neg hc, ih (fun x hx => h x (List.mem_cons_of_mem c hx))]

theorem splitOnChar_append (sep : Char) (a b : List Char) (h : ∀ c ∈ a, c ≠ sep) :
    splitOnChar sep (a ++ sep :: b) = a :: splitOnChar sep b := by
  induction a with
  | nil => simp [splitOnChar]
  | cons c cs ih =>
    have hc : c ≠ sep := h c (List.mem_cons_self c cs)
    rw [List.cons_append, splitOnChar, if_neg hc,
      ih (fun x hx => h x (List.mem_cons_of_mem c hx))]

theorem pad2_ne_colon (n : Nat) : ∀ c ∈ pad2 n, c ≠ ':' :=
  fun c hc => (isDigit_ne_sign (pad2_isDigit n c hc)).2.2

theorem splitOnChar_pad2_pair (h m : Nat) :
    splitOnChar ':' (pad2 h ++ ':' :: pad2 m) = [pad2 h, pad2 m] := by
  rw [splitOnChar_append ':' _ _ (pad2_ne_colon h),
    splitOnChar_no_sep ':' (pad2 m) (pad2_ne_colon m)]

theorem clean_pad2_pair (h m : Nat) :
    TimeInMinutesField.clean (pad2 h ++ ':' :: pad2 m) = .ok ((h : Int) * 60 + (m : Int)) := by
  have hsplit := splitOnChar_pad2_pair h m
  by_cases h00 : pad2 h ++ ':' :: pad2 m = ("00:00").toList
  · have hs := congrArg (splitOnChar ':') h00
    rw [hsplit] at hs
    have hr : splitOnChar ':' (("00:00").toList) = [['0', '0'], ['0', '0']] := by decide
    rw [hr] at hs
    have hh : pad2 h = ['0', '0'] := by
      injection hs
    have hm2 : pad2 m = ['0', '0'] := by
      injection hs with _ hs2
      injection hs2
    have hh0 : h = 0 := by
      have := parseDigits_pad2 h
      rw [hh] at this
      have h00' : parseDigits ['0', '0'] = some 0 := by decide
      rw [h00'] at this
      exact (Option.some_injective _ this).symm
    have hm0 : m = 0 := by
      have := parseDigits_pad2 m
      rw [hm2] at this
      have h00' : parseDigits ['0', '0'] = some 0 := by decide
      rw [h00'] at this
      exact (Option.some_injective _ this).symm
    subst hh0; subst hm0
    rw [TimeInMinutesField.clean, if_pos (Or.inr h00)]
    norm_num
  · have hnil : pad2 h ++ ':' :: pad2 m ≠ [] := by
      intro hv
      have := congrArg List.length hv
      simp at this
    have hmem : ':' ∈ pad2 h ++ ':' :: pad2 m := by
      simp
    rw [TimeInMinutesField.clean, if_neg (by tauto), if_pos hmem, hsplit]
    simp [pyInt_pad2]

/-- C6.  Round-trip: parsing the zero-padded "HH:MM" rendering of any
non-negative minute count recovers the count, and the formatting examples
`minutes_to_time 90 = "01:30"` and `minutes_to_hours 90 = "1.5"` hold. -/
theorem clean_minutes_to_time_roundtrip :
    (∀ m : Nat, TimeInMinutesField.clean (minutes_to_time m) = .ok (m : Int)) ∧
    minutes_to_time 90 = ("01:30").toList ∧
    minutes_to_hours 90 = ("1.5").toList := by
  refine ⟨?_, by decide, by decide⟩
  intro m
  by_cases hm : m = 0
  · subst hm; decide
  · have hform : minutes_to_time m = pad2 (m / 60) ++ ':' :: pad2 (m % 60) := by
      rw [minutes_to_time, if_neg hm]
    rw [hform, clean_pad2_pair]
    congr 1
    omega

/-- C5 counterexample.  `TimeInMinutesField.clean` accepts colon-free
integer text as a raw minute count ("90" → 90) and accepts signed
components ("-5:30" → -270); the claim says any input other than "HH:MM"
text with non-negative components is rejected with a `FormatError`. -/
theorem clean_accepts_non_clock_text :
    TimeInMinutesField.clean (("90").toList) = .ok 90 ∧
    TimeInMinutesField.clean (("-5:30").toList) = .ok (-270) := by
  constructor <;> decide

/-- C5 as amended.  `TimeInMinutesField.clean` maps empty input and
"00:00" to 0; parses "HH:MM" text (with arbitrarily large hour and minute
components) to `hours * 60 + minutes`; parses colon-free integer text
directly as minutes; and rejects everything else with the format
`ValidationError` message — without clamping any value. -/
theorem clean_spec :
    (∀ h m : Nat, TimeInMinutesField.clean (pad2 h ++ ':' :: pad2 m) =
      .ok ((h : Int) * 60 + (m : Int))) ∧
    TimeInMinutesField.clean [] = .ok 0 ∧
    TimeInMinutesField.clean (("00:00").toList) = .ok 0 ∧
    TimeInMinutesField.clean (("02:30").toList) = .ok 150 ∧
    TimeInMinutesField.clean (("01:75").toList) = .ok 135 ∧
    TimeInMinutesField.clean (("90").toList) = .ok 90 ∧
    TimeInMinutesField.clean (("ab").toList) = .error timeFormatErrorMsg ∧
    TimeInMinutesField.clean (("1:2:3").toList) = .error timeFormatErrorMsg ∧
    TimeInMinutesField.clean (("a:b").toList) = .error timeFormatErrorMsg ∧
    TimeInMinutesField.clean ((":").toList) = .error timeFormatErrorMsg := by
  exact ⟨clean_pad2_pair, by decide, by decide, by decide, by decide, by decide,
    by decide, by decide, by decide, by decide⟩

/-- C1 counterexample.  For the flight 10:00:00 → 10:00:30 the code
returns 0 minutes, while the claim's half-up formula gives
round(30 s / 60) = 1 and the claim demands a result ≥ 1. -/
theorem exact_flight_minutes_not_half_up :
    secondsFlight.exact_flight_minutes = 0 ∧
    specRoundHalfUpMinutes (overnightDiffSeconds ⟨10, 0, 0⟩ ⟨10, 0, 30⟩) = 1 := by
  constructor <;> decide

/-- C1 as amended.  With both clock times present,
`Flight.exact_flight_minutes` is the truncation (not the half-up
rounding) of the rollover-adjusted second difference divided by 60, where
24 h are added to the arrival instant exactly when it is strictly earlier
than the departure instant; the result is ≥ 0 (not ≥ 1: it is 0 when the
instants coincide or differ by under a minute); on whole-minute clock
times the truncation coincides with the claimed half-up rounding; and
computeExactMinutes(d, 23:00, 01:00) = 120. -/
theorem exact_flight_minutes_spec :
    (∀ (f : Flight) (dep arr : Time),
      f.departure_time = some dep → f.arrival_time = some arr →
      f.exact_flight_minutes = ((overnightDiffSeconds dep arr / 60 : Nat) : Int) ∧
      0 ≤ f.exact_flight_minutes ∧
      (dep.second = 0 → arr.second = 0 →
        f.exact_flight_minutes =
          ((specRoundHalfUpMinutes (overnightDiffSeconds dep arr) : Nat) : Int))) ∧
    overnightFlight.exact_flight_minutes = 120 := by
  constructor
  · intro f dep arr hd ha
    have heq : f.exact_flight_minutes = ((overnightDiffSeconds dep arr / 60 : Nat) : Int) := by
      simp [Flight.exact_flight_minutes, hd, ha, exactMinutesFromTimes]
    refine ⟨heq, ?_, ?_⟩
    · rw [heq]
      exact Int.natCast_nonneg _
    · intro h1 h2
      rw [heq]
      have hmod : overnightDiffSeconds dep arr % 60 = 0 := by
        unfold overnightDiffSeconds secondsOfDay
        rw [h1, h2]
        split <;> omega
      have : overnightDiffSeconds dep arr / 60 =
          specRoundHalfUpMinutes (overnightDiffSeconds dep arr) := by
        unfold specRoundHalfUpMinutes
        omega
      rw [this]
  · decide

/-- C4 counterexample.  Requesting the duration of a flight whose
departure time is absent does not raise: with a stored total of 1.5 h the
property returns 90 minutes. -/
theorem exact_flight_minutes_no_missing_time_error :
    noTimesFlight.exact_flight_minutes = 90 := by
  have h32 : ((3 : ℚ) / 2) ≠ 0 := by norm_num
  have h90 : ((3 : ℚ) / 2 * 60) = 90 := by norm_num
  simp only [Flight.exact_flight_minutes, noTimesFlight, baseFlight, totalTimeMinutes,
    pyTrunc, h32, h90, ne_eq, not_false_iff, if_true, ite_true]
  norm_num

/-- C4 as amended.  When either clock time is absent
`Flight.exact_flight_minutes` does not raise a typed error: it falls back
to the previously-stored duration, returning `int(total_time * 60)` when
`total_time` is set and non-zero and 0 otherwise; the stored duration is
consulted only in that case — with both times present the result comes
from the clock times alone. -/
theorem exact_flight_minutes_fallback :
    (∀ f : Flight, f.departure_time = none ∨ f.arrival_time = none →
      f.exact_flight_minutes = totalTimeMinutes f.total_time) ∧
    (∀ (f : Flight) (dep arr : Time),
      f.departure_time = some dep → f.arrival_time = some arr →
      f.exact_flight_minutes = (exactMinutesFromTimes dep arr : Int)) := by
  constructor
  · intro f h
    cases hd : f.departure_time with
    | none => cases ha : f.arrival_time <;> simp [Flight.exact_flight_minutes, hd, ha]
    | some dep =>
      cases ha : f.arrival_time with
      | none => simp [Flight.exact_flight_minutes, hd, ha]
      | some arr =>
        rcases h with h | h
        · rw [hd] at h; cases h
        · rw [ha] at h; cases h
  · intro f dep arr hd ha
    simp [Flight.exact_flight_minutes, hd, ha]

/-- C4 witness: the amended fallback behaviour at the concrete record
with a missing departure time. -/
theorem exact_flight_minutes_fallback_witness :
    noTimesFlight.exact_flight_minutes = totalTimeMinutes noTimesFlight.total_time :=
  exact_flight_minutes_fallback.1 noTimesFlight (Or.inl rfl)

/-- C1 witness: the amended duration characterisation at the overnight
example flight. -/
theorem exact_flight_minutes_spec_witness :
    overnightFlight.exact_flight_minutes =
      ((overnightDiffSeconds ⟨23, 0, 0⟩ ⟨1, 0, 0⟩ / 60 : Nat) : Int) ∧
    0 ≤ overnightFlight.exact_flight_minutes ∧
    ((⟨23, 0, 0⟩ : Time).second = 0 → (⟨1, 0, 0⟩ : Time).second = 0 →
      overnightFlight.exact_flight_minutes =
        ((specRoundHalfUpMinutes (overnightDiffSeconds ⟨23, 0, 0⟩ ⟨1, 0, 0⟩) : Nat) : Int)) :=
  exact_flight_minutes_spec.1 overnightFlight ⟨23, 0, 0⟩ ⟨1, 0, 0⟩ rfl rfl

/-- C7 counterexample.  A flight whose legacy `cross_country_time` is
positive is classified cross-country even though its departure and
arrival aerodromes are identical, so the classification is not a function
of the two location identifiers alone. -/
theorem is_cross_country_legacy_counterexample :
    legacyCrossCountryFlight.is_cross_country = true ∧
    legacyCrossCountryFlight.departure_aerodrome =
      legacyCrossCountryFlight.arrival_aerodrome := by
  constructor <;> decide

/-- C7 as amended.  `Flight.is_cross_country` is true when the legacy
`cross_country_time` field is positive, and otherwise exactly when the
departure and arrival aerodrome identifiers differ; in particular the
claim's examples hold on records with a zero legacy field. -/
theorem is_cross_country_spec :
    (∀ f : Flight, 0 < f.cross_country_time → f.is_cross_country = true) ∧
    (∀ f : Flight, f.cross_country_time ≤ 0 →
      (f.is_cross_country = true ↔ f.departure_aerodrome ≠ f.arrival_aerodrome)) ∧
    sameRouteFlight.is_cross_country = false ∧
    crossRouteFlight.is_cross_country = true := by
  refine ⟨?_, ?_, by decide, by decide⟩
  · intro f h
    simp [Flight.is_cross_country, h]
  · intro f h
    have h0 : ¬ (0 < f.cross_country_time) := by omega
    simp [Flight.is_cross_country, h0]

/-- C7 witness: the amended classification at the legacy-field record and
at the LFPB → LFPO record. -/
theorem is_cross_country_spec_witness :
    (0 < legacyCrossCountryFlight.cross_country_time ∧
      legacyCrossCountryFlight.is_cross_country = true) ∧
    (crossRouteFlight.cross_country_time ≤ 0 ∧
      (crossRouteFlight.is_cross_country = true ↔
        crossRouteFlight.departure_aerodrome ≠ crossRouteFlight.arrival_aerodrome)) :=
  ⟨⟨by decide, is_cross_country_spec.1 legacyCrossCountryFlight (by decide)⟩,
   ⟨by decide, is_cross_country_spec.2.1 crossRouteFlight (by decide)⟩⟩

/-- C9.  `total_solo_hours` and `total_pic_hours` are the same function
of the flight list: both sum `pic_time / 60` over flights with positive
`pic_time`. -/
theorem total_solo_hours_eq_total_pic_hours :
    ∀ flights : List Flight,
      PilotProfile.total_solo_hours flights = PilotProfile.total_pic_hours flights :=
  fun _ => rfl

theorem runCategoryChecks_ok_iff (total : Int) (l : List (List Char × Option Int)) :
    runCategoryChecks total l = .ok () ↔
      ∀ p ∈ l, checkCategoryWithinTotal p.1 p.2 total = .ok () := by
  induction l with
  | nil => simp [runCategoryChecks]
  | cons p rest ih =>
    cases hc : checkCategoryWithinTotal p.1 p.2 total with
    | error e => simp [runCategoryChecks, Except.bind, hc, List.forall_mem_cons]
    | ok u =>
      cases u
      simp [runCategoryChecks, Except.bind, hc, List.forall_mem_cons, ih]

theorem runCategoryChecks_error (total : Int) (l : List (List Char × Option Int))
    (e : CategoryExceedsTotalError) (h : runCategoryChecks total l = .error e) :
    ∃ p ∈ l, checkCategoryWithinTotal p.1 p.2 total = .error e := by
  induction l with
  | nil => simp [runCategoryChecks] at h
  | cons p rest ih =>
    cases hc : checkCategoryWithinTotal p.1 p.2 total with
    | error e' =>
      rw [runCategoryChecks, hc] at h
      simp only [Except.bind] at h
      exact ⟨p, List.mem_cons_self p rest, by rw [hc, h]⟩
    | ok u =>
      cases u
      rw [runCategoryChecks, hc] at h
      simp only [Except.bind] at h
      obtain ⟨q, hq, hqe⟩ := ih h
      exact ⟨q, List.mem_cons_of_mem p hq, hqe⟩

/-- C2.  Each per-category block of `FlightForm.clean` raises the
category-exceeds-total error, carrying the category name and both values,
exactly when the category minutes strictly exceed the (non-negative)
total minutes; the spec's examples for "night" hold; the ten-category
cascade passes exactly when every supplied category value is within the
total, and when it fails the error names an offending category with its
value and the total.  No value is modified (the checks return the values'
record unchanged by construction). -/
theorem validateCategoryTimes_spec :
    (∀ (name : List Char) (v total : Int), 0 ≤ total →
      ((checkCategoryWithinTotal name (some v) total = .error ⟨name, v, total⟩ ↔ total < v) ∧
       (checkCategoryWithinTotal name (some v) total = .ok () ↔ v ≤ total))) ∧
    (checkCategoryWithinTotal (("night").toList) (some 70) 60 =
      .error ⟨("night").toList, 70, 60⟩) ∧
    (checkCategoryWithinTotal (("night").toList) (some 60) 60 = .ok ()) ∧
    (∀ (d : FlightFormTimes) (total : Int), 0 ≤ total →
      (FlightForm.validateCategoryTimes d total = .ok () ↔
        ∀ p ∈ categoryChecks d, ∀ v : Int, p.2 = some v → v ≤ total)) ∧
    (∀ (d : FlightFormTimes) (total : Int) (e : CategoryExceedsTotalError), 0 ≤ total →
      FlightForm.validateCategoryTimes d total = .error e →
      e.totalMinutes = total ∧ total < e.categoryMinutes ∧
        (e.category, some e.categoryMinutes) ∈ categoryChecks d) := by
  have hok : ∀ (name : List Char) (v total : Int), 0 ≤ total →
      (checkCategoryWithinTotal name (some v) total = .ok () ↔ v ≤ total) := by
    intro name v total htot
    by_cases hc : v ≠ 0 ∧ total < v
    · simp only [checkCategoryWithinTotal, if_pos hc]
      constructor
      · intro h'
        simp at h'
      · intro hv
        omega
    · simp only [checkCategoryWithinTotal, if_neg hc]
      constructor
      · intro _
        omega
      · intro _
        trivial
  refine ⟨?_, by decide, by decide, ?_, ?_⟩
  · intro name v total htot
    refine ⟨?_, hok name v total htot⟩
    by_cases hc : v ≠ 0 ∧ total < v
    · simp only [checkCategoryWithinTotal, if_pos hc]
      constructor
      · intro _
        omega
      · intro _
        trivial
    · simp only [checkCategoryWithinTotal, if_neg hc]
      constructor
      · intro h'
        simp at h'
      · intro hv
        omega
  · intro d total htot
    rw [FlightForm.validateCategoryTimes, runCategoryChecks_ok_iff]
    constructor
    · intro hall p hp v hv
      have := hall p hp
      rw [hv] at this
      exact (hok p.1 v total htot).mp this
    · intro hall p hp
      cases ho : p.2 with
      | none => simp [checkCategoryWithinTotal]
      | some v =>
        exact (hok p.1 v total htot).mpr (hall p hp v ho)
  · intro d total e htot herr
    obtain ⟨p, hp, hpe⟩ := runCategoryChecks_error total (categoryChecks d) e herr
    cases ho : p.2 with
    | none =>
      rw [ho] at hpe
      simp [checkCategoryWithinTotal] at hpe
    | some v =>
      rw [ho] at hpe
      by_cases hc : v ≠ 0 ∧ total < v
      · rw [checkCategoryWithinTotal, if_pos hc] at hpe
        have he : e = ⟨p.1, v, total⟩ := by
          injection hpe with h'
          exact h'.symm
        subst he
        refine ⟨rfl, hc.2, ?_⟩
        have hpeq : p = (p.1, some v) := by
          rw [← ho]
        rw [← hpeq]
        exact hp
      · rw [checkCategoryWithinTotal, if_neg hc] at hpe
        simp at hpe

/-- C2 witness: the per-category characterisation instantiated at
("night", 70, 60), and the cascade characterisation at a concrete set of
category values with total 60. -/
theorem validateCategoryTimes_spec_witness :
    ((checkCategoryWithinTotal (("night").toList) (some 70) 60 =
        .error ⟨("night").toList, 70, 60⟩ ↔ (60 : Int) < 70) ∧
     (checkCategoryWithinTotal (("night").toList) (some 70) 60 = .ok () ↔ (70 : Int) ≤ 60)) ∧
    (FlightForm.validateCategoryTimes exampleFormTimes 60 = .ok () ↔
      ∀ p ∈ categoryChecks exampleFormTimes, ∀ v : Int, p.2 = some v → v ≤ 60) :=
  ⟨validateCategoryTimes_spec.1 (("night").toList) 70 60 (by decide),
   validateCategoryTimes_spec.2.2.2.1 exampleFormTimes 60 (by decide)⟩

theorem saveAutoTotal_eq_of_truthy (f : Flight) (h : totalTimeTruthy f.total_time = true) :
    f.saveAutoTotal = f := by
  rw [Flight.saveAutoTotal, if_pos h]

theorem saveAutoTotal_aircraft (f : Flight) : (f.saveAutoTotal).aircraft = f.aircraft := by
  by_cases h : totalTimeTruthy f.total_time
  · simp [Flight.saveAutoTotal, h]
  · cases hd : f.departure_time <;> cases ha : f.arrival_time <;>
      simp [Flight.saveAutoTotal, h, hd, ha]

theorem save_total_time (f : Flight) : (f.save).total_time = (f.saveAutoTotal).total_time := by
  cases ha : (f.saveAutoTotal).aircraft with
  | none => simp [Flight.save, ha]
  | some a => cases he : a.engine_type <;> simp [Flight.save, ha, he]

theorem saveAutoTotal_engines (f : Flight) (x y : Int) :
    ({ f with single_engine_time := x, multi_engine_time := y } : Flight).saveAutoTotal =
      { f.saveAutoTotal with single_engine_time := x, multi_engine_time := y } := by
  by_cases h : totalTimeTruthy f.total_time
  · simp [Flight.saveAutoTotal, h]
  · cases hd : f.departure_time <;> cases ha : f.arrival_time <;>
      simp [Flight.saveAutoTotal, h, hd, ha]

/-- C10.  `Flight.save` leaves a non-zero stored `total_time` untouched —
even when it disagrees with the clock times — and fills it from the clock
times only when it is unset (`None`) or zero; `recalculate_total_time`
unconditionally overwrites it from the exact minute count when both clock
times are present (reporting `true`, else doing nothing and reporting
`false`).  Concretely, the flight stored with 1.0 h but clocked
10:00 → 12:00 still has 1.0 h after `save`, and only
`recalculate_total_time` updates it to 2.0 h. -/
theorem save_keeps_nonzero_total_time :
    (∀ (f : Flight) (t : ℚ), f.total_time = some t → t ≠ 0 → (f.save).total_time = some t) ∧
    (∀ (f : Flight) (dep arr : Time),
      f.departure_time = some dep → f.arrival_time = some arr →
      (f.total_time = none ∨ f.total_time = some 0) →
      (f.save).total_time =
        some (quantizeHundredths (roundHalfEvenDiv (overnightDiffSeconds dep arr) 60))) ∧
    (∀ (f : Flight) (dep arr : Time),
      f.departure_time = some dep → f.arrival_time = some arr →
      f.recalculate_total_time =
        ({ f with total_time := some (quantizeHundredths (exactMinutesFromTimes dep arr)) },
          true)) ∧
    (∀ f : Flight, f.departure_time = none ∨ f.arrival_time = none →
      f.recalculate_total_time = (f, false)) ∧
    ((staleFlight.save).total_time = some 1 ∧
      ((staleFlight.recalculate_total_time).1).total_time = some 2 ∧ (1 : ℚ) ≠ 2) := by
  have h1 : ∀ (f : Flight) (t : ℚ), f.total_time = some t → t ≠ 0 →
      (f.save).total_time = some t := by
    intro f t hft ht
    have htr : totalTimeTruthy f.total_time = true := by
      rw [hft]
      simpa [totalTimeTruthy] using ht
    rw [save_total_time, saveAutoTotal_eq_of_truthy f htr, hft]
  have h3 : ∀ (f : Flight) (dep arr : Time),
      f.departure_time = some dep → f.arrival_time = some arr →
      f.recalculate_total_time =
        ({ f with total_time := some (quantizeHundredths (exactMinutesFromTimes dep arr)) },
          true) := by
    intro f dep arr hd ha
    rw [Flight.recalculate_total_time, hd, ha]
  refine ⟨h1, ?_, h3, ?_, ?_, ?_, by norm_num⟩
  · intro f dep arr hd ha hz
    have htr : totalTimeTruthy f.total_time = false := by
      rcases hz with hz | hz <;> rw [hz] <;> simp [totalTimeTruthy]
    rw [save_total_time, Flight.saveAutoTotal, if_neg (by rw [htr]; exact Bool.false_ne_true),
      hd, ha]
  · intro f h
    cases hd : f.departure_time with
    | none => cases ha : f.arrival_time <;> rw [Flight.recalculate_total_time, hd, ha]
    | some dep =>
      cases ha : f.arrival_time with
      | none => rw [Flight.recalculate_total_time, hd, ha]
      | some arr =>
        rcases h with h | h
        · rw [hd] at h; cases h
        · rw [ha] at h; cases h
  · exact h1 staleFlight 1 rfl (by norm_num)
  · have hr := h3 staleFlight ⟨10, 0, 0⟩ ⟨12, 0, 0⟩ rfl rfl
    rw [hr]
    have hq : quantizeHundredths (exactMinutesFromTimes ⟨10, 0, 0⟩ ⟨12, 0, 0⟩) = 2 := by
      have hm : exactMinutesFromTimes ⟨10, 0, 0⟩ ⟨12, 0, 0⟩ = 120 := by decide
      rw [hm]
      have hrd : roundHalfEvenDiv (100 * 120) 60 = 200 := by decide
      rw [quantizeHundredths, hrd]
      norm_num
    rw [hq]

/-- C10 witness: the stale-total preservation applied at the concrete
flight with stored 1.0 h and clock times 10:00 → 12:00. -/
theorem save_keeps_nonzero_total_time_witness :
    (staleFlight.save).total_time = some 1 :=
  save_keeps_nonzero_total_time.1 staleFlight 1 rfl one_ne_zero

/-- C3.  On every save: with a SINGLE-engine aircraft the stored
single-engine time becomes the flight's total minutes
(`int(total_time * 60)` of the post-save total) and the multi-engine time
becomes 0; with a MULTI-engine aircraft symmetrically; with no aircraft
(simulator flight) both become 0; and the derived values are independent
of whatever engine times were on the record before the save — user-
supplied values are always overridden. -/
theorem save_derives_engine_times :
    (∀ (f : Flight) (a : Aircraft), f.aircraft = some a →
      (a.engine_type = .single →
        (f.save).single_engine_time = totalTimeMinutes (f.save).total_time ∧
        (f.save).multi_engine_time = 0) ∧
      (a.engine_type = .multi →
        (f.save).multi_engine_time = totalTimeMinutes (f.save).total_time ∧
        (f.save).single_engine_time = 0)) ∧
    (∀ f : Flight, f.aircraft = none →
      (f.save).single_engine_time = 0 ∧ (f.save).multi_engine_time = 0) ∧
    (∀ (f : Flight) (x y : Int),
      (({ f with single_engine_time := x, multi_engine_time := y } : Flight).save).single_engine_time =
        (f.save).single_engine_time ∧
      (({ f with single_engine_time := x, multi_engine_time := y } : Flight).save).multi_engine_time =
        (f.save).multi_engine_time) := by
  refine ⟨?_, ?_, ?_⟩
  · intro f a hfa
    have ha : (f.saveAutoTotal).aircraft = some a := by
      rw [saveAutoTotal_aircraft, hfa]
    constructor
    · intro he
      rw [Flight.save] at *
      simp [ha, he, save_total_time]
    · intro he
      rw [Flight.save] at *
      simp [ha, he, save_total_time]
  · intro f hfa
    have ha : (f.saveAutoTotal).aircraft = none := by
      rw [saveAutoTotal_aircraft, hfa]
    rw [Flight.save]
    simp [ha]
  · intro f x y
    rw [Flight.save, Flight.save, saveAutoTotal_engines]
    cases ha : (f.saveAutoTotal).aircraft with
    | none => simp [ha]
    | some a => cases he : a.engine_type <;> simp [ha, he]

/-- C3 witness: the derivation at a concrete single-engine flight (which
carries stale user-supplied engine times before the save), and at a
concrete simulator flight. -/
theorem save_derives_engine_times_witness :
    ((scenarioAircraft.engine_type = EngineType.single →
        (({ scenarioFlight1 with single_engine_time := 7, multi_engine_time := 8 } : Flight).save).single_engine_time =
          totalTimeMinutes (({ scenarioFlight1 with single_engine_time := 7, multi_engine_time := 8 } : Flight).save).total_time ∧
        (({ scenarioFlight1 with single_engine_time := 7, multi_engine_time := 8 } : Flight).save).multi_engine_time = 0) ∧
     (scenarioAircraft.engine_type = EngineType.multi →
        (({ scenarioFlight1 with single_engine_time := 7, multi_engine_time := 8 } : Flight).save).multi_engine_time =
          totalTimeMinutes (({ scenarioFlight1 with single_engine_time := 7, multi_engine_time := 8 } : Flight).save).total_time ∧
        (({ scenarioFlight1 with single_engine_time := 7, multi_engine_time := 8 } : Flight).save).single_engine_time = 0)) ∧
    ((scenarioFlight3.save).single_engine_time = 0 ∧ (scenarioFlight3.save).multi_engine_time = 0) :=
  ⟨save_derives_engine_times.1
      ({ scenarioFlight1 with single_engine_time := 7, multi_engine_time := 8 }) scenarioAircraft rfl,
   save_derives_engine_times.2.1 scenarioFlight3 rfl⟩

theorem mem_insertUsageDesc {a e : UsageEntry} {l : List UsageEntry} :
    a ∈ insertUsageDesc e l ↔ a = e ∨ a ∈ l := by
  induction l with
  | nil => simp [insertUsageDesc]
  | cons x xs ih =>
    by_cases h : x.total_hours ≤ e.total_hours
    · simp [insertUsageDesc, h]
    · simp only [insertUsageDesc, if_neg h, List.mem_cons, ih]
      tauto

theorem pairwise_insertUsageDesc {e : UsageEntry} {l : List UsageEntry}
    (hl : l.Pairwise (fun a b => b.total_hours ≤ a.total_hours)) :
    (insertUsageDesc e l).Pairwise (fun a b => b.total_hours ≤ a.total_hours) := by
  induction l with
  | nil => simp [insertUsageDesc]
  | cons x xs ih =>
    rw [List.pairwise_cons] at hl
    obtain ⟨hx, hxs⟩ := hl
    by_cases h : x.total_hours ≤ e.total_hours
    · rw [insertUsageDesc, if_pos h]
      refine List.Pairwise.cons ?_ (List.Pairwise.cons hx hxs)
      intro b hb
      rcases List.mem_cons.mp hb with rfl | hb
      · exact h
      · exact le_trans (hx b hb) h
    · rw [insertUsageDesc, if_neg h]
      refine List.Pairwise.cons ?_ (ih hxs)
      intro b hb
      rcases mem_insertUsageDesc.mp hb with rfl | hb
      · exact le_of_not_le h
      · exact hx b hb

theorem pairwise_sortUsageDesc (l : List UsageEntry) :
    (sortUsageDesc l).Pairwise (fun a b => b.total_hours ≤ a.total_hours) := by
  induction l with
  | nil => simp [sortUsageDesc]
  | cons x xs ih =>
    rw [sortUsageDesc]
    exact pairwise_insertUsageDesc ih

/-- C8.  The aggregator: pilot totals are the minute sums divided by 60;
the usage summary is sorted by descending accumulated hours and a truthy
limit truncates it to at most that many groups; and on the concrete
scenario — flights of 60, 90 and 30 minutes, the first with 30 night
minutes, the second with 90 PIC minutes, the third a simulator flight
with no aircraft — the totals are 3.0 total hours and 0.5 night hours,
and the summary is the Cessna group (2.5 h, 2 flights) followed by the
"SIM" group (0.5 h, 1 flight). -/
theorem aggregator_spec :
    (∀ (flights : List Flight) (limit : Option Nat),
      (calculate_aircraft_usage_accurate flights limit).Pairwise
        (fun a b => b.total_hours ≤ a.total_hours)) ∧
    (∀ (flights : List Flight) (l : Nat), l ≠ 0 →
      (calculate_aircraft_usage_accurate flights (some l)).length ≤ l) ∧
    PilotProfile.total_flight_hours scenarioFlights = 3 ∧
    PilotProfile.total_night_hours scenarioFlights = 1 / 2 ∧
    calculate_aircraft_usage_accurate scenarioFlights (some 5) =
      [⟨("F-GABC").toList, ("Cessna").toList, ("Cessna 152").toList, 5 / 2, 2⟩,
       ⟨("SIM").toList, ("Simulator").toList, ("SIM").toList, 1 / 2, 1⟩] := by
  have hm1 : scenarioFlight1.exact_flight_minutes = 60 := by decide
  have hm2 : scenarioFlight2.exact_flight_minutes = 90 := by decide
  have hm3 : scenarioFlight3.exact_flight_minutes = 30 := by decide
  refine ⟨?_, ?_, ?_, ?_, ?_⟩
  · intro flights limit
    cases limit with
    | none => exact pairwise_sortUsageDesc _
    | some l =>
      by_cases hl : l ≠ 0
      · rw [calculate_aircraft_usage_accurate, if_pos hl]
        exact (pairwise_sortUsageDesc _).sublist (List.take_sublist _ _)
      · rw [calculate_aircraft_usage_accurate, if_neg hl]
        exact pairwise_sortUsageDesc _
  · intro flights l hl
    rw [calculate_aircraft_usage_accurate, if_pos hl]
    exact List.length_take_le _ _
  · rw [PilotProfile.total_flight_hours, scenarioFlights]
    simp only [List.map_cons, List.map_nil, List.sum_cons, List.sum_nil, hm1, hm2, hm3]
    norm_num
  · rw [PilotProfile.total_night_hours, scenarioFlights]
    norm_num [scenarioFlight1, scenarioFlight2, scenarioFlight3, baseFlight]
  · rw [calculate_aircraft_usage_accurate, scenarioFlights]
    simp only [List.foldl_cons, List.foldl_nil, addFlightToTotals, hm1, hm2, hm3]
    norm_num [usageKey, scenarioFlight1, scenarioFlight2, scenarioFlight3, baseFlight,
      scenarioAircraft, updateUsage, sortUsageDesc, insertUsageDesc]

/-- C8 witness: the truncation bound applied at the scenario flights with
limit 1. -/
theorem aggregator_spec_witness :
    (calculate_aircraft_usage_accurate scenarioFlights (some 1)).length ≤ 1 :=
  aggregator_spec.2.1 scenarioFlights 1 one_ne_zero

end Wingman
